/-
Verification of the SciREX FastVPINNs residual kernels and the transient
vector PINN training step.

Source files embedded here:
  scirex/core/sciml/fastvpinns/physics/poisson2d_inverse.py
  scirex/core/sciml/fastvpinns/physics/helmholtz2d.py
  scirex/core/sciml/fastvpinns/physics/cd2d_inverse_domain.py
  scirex/core/sciml/pinns/model/model_vector_transient.py

Tensors are modelled shallowly: a rank-3 tensor (n_elements, n_test_functions,
n_quad_points) and a rank-2 tensor (matrix) carry their shape explicitly and a
total entry function into ℚ (exact arithmetic standing in for the IEEE floats
of the TensorFlow runtime; all claims under study are algebraic identities or
small exact scenarios).  Dictionary parameters (`bilinear_params`,
`inverse_params_dict`) are partial maps `String → Option ℚ`; a lookup of an
absent key is the KeyError failure the spec calls MissingCoefficientError,
so the kernels live in `Except KernelError`.
-/
import Mathlib

namespace SciREX

/-- A rank-3 tensor of shape (dim0, dim1, dim2) = (n_elements, n_test_functions,
n_quad_points), as used for `test_shape_val_mat`, `test_grad_x_mat`,
`test_grad_y_mat`. -/
structure Tensor3 where
  dim0 : ℕ
  dim1 : ℕ
  dim2 : ℕ
  entry : ℕ → ℕ → ℕ → ℚ

/-- A rank-2 tensor (matrix).  Predictions such as `pred_nn`, `pred_grad_x_nn`
have shape (n_elements, n_quad_points); residual matrices have shape
(n_test_functions, n_elements). -/
structure Mat where
  dim0 : ℕ
  dim1 : ℕ
  entry : ℕ → ℕ → ℚ

/-- A rank-1 tensor, the per-cell residual output. -/
structure Vec where
  len : ℕ
  entry : ℕ → ℚ

/-- `tf.linalg.matvec M v` for a batched matrix `M : (E, T, Q)` and a batched
vector `v : (E, Q)`: per element `e`, the matrix–vector product contracting the
quadrature axis, giving shape (E, T). -/
def matvec (M : Tensor3) (v : Mat) : Mat :=
  ⟨M.dim0, M.dim1, fun e t => ∑ q ∈ Finset.range M.dim2, M.entry e t q * v.entry e q⟩

/-- `tf.transpose` of a rank-2 tensor. -/
def Mat.transpose (A : Mat) : Mat :=
  ⟨A.dim1, A.dim0, fun i j => A.entry j i⟩

/-- Scalar multiplication of a rank-2 tensor (`c * A` in TensorFlow). -/
def Mat.smul (c : ℚ) (A : Mat) : Mat :=
  ⟨A.dim0, A.dim1, fun i j => c * A.entry i j⟩

/-- Elementwise addition (`A + B`); the operands share a shape in every use
below, and the result carries the left operand's shape. -/
def Mat.add (A B : Mat) : Mat :=
  ⟨A.dim0, A.dim1, fun i j => A.entry i j + B.entry i j⟩

/-- Elementwise subtraction (`A - B`). -/
def Mat.sub (A B : Mat) : Mat :=
  ⟨A.dim0, A.dim1, fun i j => A.entry i j - B.entry i j⟩

/-- Elementwise (Hadamard) product (`A * B` in TensorFlow). -/
def Mat.hadamard (A B : Mat) : Mat :=
  ⟨A.dim0, A.dim1, fun i j => A.entry i j * B.entry i j⟩

/-- A constant rank-2 tensor, used to express broadcasting a scalar. -/
def Mat.const (r c : ℕ) (x : ℚ) : Mat :=
  ⟨r, c, fun _ _ => x⟩

/-- `tf.reduce_mean(tf.square(A), axis=0)`: the mean over the leading
(test-function) axis of the squared entries, one value per column. -/
def reduceMeanSqAxis0 (A : Mat) : Vec :=
  ⟨A.dim1, fun j => (∑ i ∈ Finset.range A.dim0, (A.entry i j) ^ 2) / (A.dim0 : ℚ)⟩

/-- A parameter dictionary: partial map from coefficient name to scalar value. -/
def Params : Type := String → Option ℚ

/-- Failure modes of a residual kernel.  `missingCoefficient k` is the fatal
error raised when key `k` is absent from the supplied parameter mapping (the
spec's MissingCoefficientError); `indexError` is the fatal error raised when
`inverse_params_list[0]` is taken on an empty list. -/
inductive KernelError where
  | missingCoefficient : String → KernelError
  | indexError : KernelError
deriving DecidableEq, Repr

/-- `true` exactly when a kernel run failed with a missing-coefficient error. -/
def isMissingCoeff (r : Except KernelError Vec) : Bool :=
  match r with
  | .error (.missingCoefficient _) => true
  | _ => false

/-- The entry at index `j` of a successful kernel result, `none` on failure. -/
def okEntry (r : Except KernelError Vec) (j : ℕ) : Option ℚ :=
  match r with
  | .ok v => some (v.entry j)
  | .error _ => none

/-- The length of a successful kernel result, `none` on failure. -/
def okLen (r : Except KernelError Vec) : Option ℕ :=
  match r with
  | .ok v => some v.len
  | .error _ => none

/-! ## Poisson 2D inverse kernel (`poisson2d_inverse.py`) -/

/-- The scaled diffusion term of `pde_loss_poisson_inverse`:
`pde_diffusion = inverse_params_dict["eps"] * (pde_diffusion_x + pde_diffusion_y)`
with `pde_diffusion_x = tf.transpose(tf.linalg.matvec(test_grad_x_mat, pred_grad_x_nn))`
and `pde_diffusion_y` its y analogue. -/
def poisson_pde_diffusion (eps : ℚ) (test_grad_x_mat test_grad_y_mat : Tensor3)
    (pred_grad_x_nn pred_grad_y_nn : Mat) : Mat :=
  let pde_diffusion_x := (matvec test_grad_x_mat pred_grad_x_nn).transpose
  let pde_diffusion_y := (matvec test_grad_y_mat pred_grad_y_nn).transpose
  Mat.smul eps (Mat.add pde_diffusion_x pde_diffusion_y)

/-- The pre-square residual matrix of `pde_loss_poisson_inverse`:
`residual_matrix = pde_diffusion - forcing_function`. -/
def poisson_residual_matrix (eps : ℚ) (test_grad_x_mat test_grad_y_mat : Tensor3)
    (pred_grad_x_nn pred_grad_y_nn : Mat) (forcing_function : Mat) : Mat :=
  Mat.sub (poisson_pde_diffusion eps test_grad_x_mat test_grad_y_mat
    pred_grad_x_nn pred_grad_y_nn) forcing_function

/-- `pde_loss_poisson_inverse` from `poisson2d_inverse.py`.  The diffusion
contractions are formed, the constant coefficient `eps` is read from
`inverse_params_dict` (a missing key is the fatal missing-coefficient failure)
and scales the contraction sum, the forcing is subtracted, and the squared
residual matrix is mean-reduced over the test-function axis.
`test_shape_val_mat`, `pred_nn` and `bilinear_params` are accepted but unused,
as in the source. -/
def pde_loss_poisson_inverse (test_shape_val_mat test_grad_x_mat test_grad_y_mat : Tensor3)
    (pred_nn pred_grad_x_nn pred_grad_y_nn : Mat)
    (forcing_function : Mat) (bilinear_params : Params) (inverse_params_dict : Params) :
    Except KernelError Vec :=
  match inverse_params_dict "eps" with
  | none => .error (.missingCoefficient "eps")
  | some eps =>
    let residual_matrix := poisson_residual_matrix eps test_grad_x_mat test_grad_y_mat
      pred_grad_x_nn pred_grad_y_nn forcing_function
    .ok (reduceMeanSqAxis0 residual_matrix)

/-! ## Helmholtz 2D kernel (`helmholtz2d.py`) -/

/-- The eps-scaled diffusion term of `pde_loss_helmholtz`, formed exactly as in
the Poisson-inverse kernel but with `eps` read from `bilinear_params`. -/
def helmholtz_pde_diffusion (eps : ℚ) (test_grad_x_mat test_grad_y_mat : Tensor3)
    (pred_grad_x_nn pred_grad_y_nn : Mat) : Mat :=
  let pde_diffusion_x := (matvec test_grad_x_mat pred_grad_x_nn).transpose
  let pde_diffusion_y := (matvec test_grad_y_mat pred_grad_y_nn).transpose
  Mat.smul eps (Mat.add pde_diffusion_x pde_diffusion_y)

/-- The wave term of `pde_loss_helmholtz`:
`helmholtz_additional = (bilinear_params["k"] ** 2) * tf.transpose(tf.linalg.matvec(test_shape_val_mat, pred_nn))`. -/
def helmholtz_additional (k : ℚ) (test_shape_val_mat : Tensor3) (pred_nn : Mat) : Mat :=
  Mat.smul (k ^ 2) (matvec test_shape_val_mat pred_nn).transpose

/-- The pre-square residual matrix of `pde_loss_helmholtz`:
`residual_matrix = -1.0 * (pde_diffusion) + helmholtz_additional - forcing_function`. -/
def helmholtz_residual_matrix (eps k : ℚ)
    (test_shape_val_mat test_grad_x_mat test_grad_y_mat : Tensor3)
    (pred_nn pred_grad_x_nn pred_grad_y_nn : Mat) (forcing_function : Mat) : Mat :=
  Mat.sub
    (Mat.add
      (Mat.smul (-1) (helmholtz_pde_diffusion eps test_grad_x_mat test_grad_y_mat
        pred_grad_x_nn pred_grad_y_nn))
      (helmholtz_additional k test_shape_val_mat pred_nn))
    forcing_function

/-- `pde_loss_helmholtz` from `helmholtz2d.py`.  Reads `eps` and `k` from
`bilinear_params` (in source order, so a missing `eps` is reported first),
composes the residual as minus the scaled diffusion plus the wave term minus
the forcing, and mean-reduces the squared residual over the test-function
axis. -/
def pde_loss_helmholtz (test_shape_val_mat test_grad_x_mat test_grad_y_mat : Tensor3)
    (pred_nn pred_grad_x_nn pred_grad_y_nn : Mat)
    (forcing_function : Mat) (bilinear_params : Params) :
    Except KernelError Vec :=
  match bilinear_params "eps" with
  | none => .error (.missingCoefficient "eps")
  | some eps =>
    match bilinear_params "k" with
    | none => .error (.missingCoefficient "k")
    | some k =>
      let residual_matrix := helmholtz_residual_matrix eps k
        test_shape_val_mat test_grad_x_mat test_grad_y_mat
        pred_nn pred_grad_x_nn pred_grad_y_nn forcing_function
      .ok (reduceMeanSqAxis0 residual_matrix)

/-! ## Convection–diffusion 2D inverse kernel (`cd2d_inverse_domain.py`) -/

/-- The diffusion term of `pde_loss_cd2d_inverse_domain`: the per-point
coefficient `diffusion_coeff_NN` is multiplied elementwise into each predicted
gradient component BEFORE the test-function contraction:
`pde_diffusion_x = tf.transpose(tf.linalg.matvec(test_grad_x_mat, pred_grad_x_nn * diffusion_coeff_NN))`,
`pde_diffusion = pde_diffusion_x + pde_diffusion_y`. -/
def cd2d_pde_diffusion (diffusion_coeff_NN : Mat)
    (test_grad_x_mat test_grad_y_mat : Tensor3)
    (pred_grad_x_nn pred_grad_y_nn : Mat) : Mat :=
  let pde_diffusion_x :=
    (matvec test_grad_x_mat (Mat.hadamard pred_grad_x_nn diffusion_coeff_NN)).transpose
  let pde_diffusion_y :=
    (matvec test_grad_y_mat (Mat.hadamard pred_grad_y_nn diffusion_coeff_NN)).transpose
  Mat.add pde_diffusion_x pde_diffusion_y

/-- The pre-square residual matrix of `pde_loss_cd2d_inverse_domain`:
`residual_matrix = (pde_diffusion + conv + reaction) - forcing_function` with
`conv = b_x * conv_x + b_y * conv_y` and `reaction = c * (value contraction)`. -/
def cd2d_residual_matrix (b_x b_y c : ℚ) (diffusion_coeff_NN : Mat)
    (test_shape_val_mat test_grad_x_mat test_grad_y_mat : Tensor3)
    (pred_nn pred_grad_x_nn pred_grad_y_nn : Mat) (forcing_function : Mat) : Mat :=
  let pde_diffusion := cd2d_pde_diffusion diffusion_coeff_NN test_grad_x_mat test_grad_y_mat
    pred_grad_x_nn pred_grad_y_nn
  let conv_x := (matvec test_shape_val_mat pred_grad_x_nn).transpose
  let conv_y := (matvec test_shape_val_mat pred_grad_y_nn).transpose
  let conv := Mat.add (Mat.smul b_x conv_x) (Mat.smul b_y conv_y)
  let reaction := Mat.smul c (matvec test_shape_val_mat pred_nn).transpose
  Mat.sub (Mat.add (Mat.add pde_diffusion conv) reaction) forcing_function

/-- `pde_loss_cd2d_inverse_domain` from `cd2d_inverse_domain.py`.
`diffusion_coeff_NN = inverse_params_list[0]` (an empty list is the fatal index
failure); `b_x`, `b_y`, `c` are read from `bilinear_params` in source order; the
squared residual matrix is mean-reduced over the test-function axis. -/
def pde_loss_cd2d_inverse_domain
    (test_shape_val_mat test_grad_x_mat test_grad_y_mat : Tensor3)
    (pred_nn pred_grad_x_nn pred_grad_y_nn : Mat)
    (forcing_function : Mat) (bilinear_params : Params) (inverse_params_list : List Mat) :
    Except KernelError Vec :=
  match inverse_params_list with
  | [] => .error .indexError
  | diffusion_coeff_NN :: _ =>
    match bilinear_params "b_x" with
    | none => .error (.missingCoefficient "b_x")
    | some b_x =>
      match bilinear_params "b_y" with
      | none => .error (.missingCoefficient "b_y")
      | some b_y =>
        match bilinear_params "c" with
        | none => .error (.missingCoefficient "c")
        | some c =>
          let residual_matrix := cd2d_residual_matrix b_x b_y c diffusion_coeff_NN
            test_shape_val_mat test_grad_x_mat test_grad_y_mat
            pred_nn pred_grad_x_nn pred_grad_y_nn forcing_function
          .ok (reduceMeanSqAxis0 residual_matrix)

/-! ## Training step (`model_vector_transient.py`, `DenseModel.train_step`)

The step is embedded with the autodiff/optimizer capabilities of the host
runtime abstracted as function arguments: `forward_pass` is the network
evaluated on an input batch under the current trainable state (it may fail
fatally, e.g. on a shape mismatch), `loss_function` is the user-supplied
coupled-field residual (it may fail fatally, e.g. on a missing coefficient),
and `apply_gradients` is `tape.gradient` followed by
`optimizer.apply_gradients` — the one and only mutation of the trainable
parameters and optimizer state, performed last, from the total loss. -/

/-- Failure modes of a training step. -/
inductive StepError where
  | shapeMismatch : StepError
  | missingCoefficient : String → StepError
  | invalidDType : StepError
deriving DecidableEq, Repr

/-- The mutable training state: trainable network parameters (plus any inverse
parameters), the optimizer's internal state (moment estimates, step count), and
the epoch counter. -/
structure TrainingState where
  trainable_variables : List ℚ
  optimizer_state : List ℚ
  epoch : ℕ
deriving DecidableEq, Repr

/-- The four named scalar losses returned by `train_step`
(`loss_pde`, `loss_dirichlet`, `loss_initial`, `loss`). -/
structure StepLosses where
  loss_pde : ℚ
  loss_dirichlet : ℚ
  loss_initial : ℚ
  loss : ℚ
deriving DecidableEq, Repr

/-- `tf.reduce_mean(tf.square(predicted - actual))`: the mean squared error of
two equally long lists of values. -/
def mse (predicted actual : List ℚ) : ℚ :=
  ((List.zipWith (fun a b => (a - b) ^ 2) predicted actual).sum) /
    ((List.zipWith (fun a b => (a - b) ^ 2) predicted actual).length : ℚ)

/-- Default of the `beta_boundary` argument of `train_step` (source: 10.0). -/
def beta_boundary_default : ℚ := 10

/-- Default of the `beta_initial` argument of `train_step` (source: 100.0). -/
def beta_initial_default : ℚ := 100

/-- Loss assembly of `train_step` (lines 339–373): boundary and per-field
initial losses as mean squared errors, then
`total_loss = pde_residual + beta_boundary * boundary_loss + beta_initial * (initial_Ez_loss + initial_Hx_loss + initial_Hy_loss)`,
returned as the four named scalars. -/
def compute_losses (beta_boundary beta_initial : ℚ) (pde_residual : ℚ)
    (predicted_values_dirichlet dirichlet_actual : List ℚ)
    (predicted_values_initial_Ez initial_Ez_actual : List ℚ)
    (predicted_values_initial_Hx initial_Hx_actual : List ℚ)
    (predicted_values_initial_Hy initial_Hy_actual : List ℚ) : StepLosses :=
  let boundary_loss := mse predicted_values_dirichlet dirichlet_actual
  let initial_Ez_loss := mse predicted_values_initial_Ez initial_Ez_actual
  let initial_Hx_loss := mse predicted_values_initial_Hx initial_Hx_actual
  let initial_Hy_loss := mse predicted_values_initial_Hy initial_Hy_actual
  let total_loss := pde_residual + beta_boundary * boundary_loss +
    beta_initial * (initial_Ez_loss + initial_Hx_loss + initial_Hy_loss)
  { loss_pde := pde_residual
    loss_dirichlet := boundary_loss
    loss_initial := initial_Ez_loss + initial_Hx_loss + initial_Hy_loss
    loss := total_loss }

/-- `DenseModel.train_step`: predict boundary and the three initial-condition
batches, predict the interior batch (whose per-coordinate gradients feed the
residual), evaluate the coupled-field residual, assemble the losses, and only
then apply the single optimizer update from the total loss.  Any fatal error in
the prediction or residual phases propagates before `apply_gradients` runs. -/
def train_step
    (forward_pass : TrainingState → List ℚ → Except StepError (List ℚ))
    (loss_function : List ℚ → Except StepError ℚ)
    (apply_gradients : TrainingState → ℚ → TrainingState)
    (beta_boundary beta_initial : ℚ)
    (dirichlet_input dirichlet_actual : List ℚ)
    (initial_Ez_input initial_Ez_actual : List ℚ)
    (initial_Hx_input initial_Hx_actual : List ℚ)
    (initial_Hy_input initial_Hy_actual : List ℚ)
    (input_tensor : List ℚ)
    (st : TrainingState) : Except StepError (TrainingState × StepLosses) := do
  let predicted_values_dirichlet ← forward_pass st dirichlet_input
  let predicted_values_initial_Ez ← forward_pass st initial_Ez_input
  let predicted_values_initial_Hx ← forward_pass st initial_Hx_input
  let predicted_values_initial_Hy ← forward_pass st initial_Hy_input
  let predicted_values ← forward_pass st input_tensor
  let pde_residual ← loss_function predicted_values
  let losses := compute_losses beta_boundary beta_initial pde_residual
    predicted_values_dirichlet dirichlet_actual
    predicted_values_initial_Ez initial_Ez_actual
    predicted_values_initial_Hx initial_Hx_actual
    predicted_values_initial_Hy initial_Hy_actual
  let st1 := apply_gradients st losses.loss
  .ok (st1, losses)

/-- The observable training state after a step: Python exception semantics — a
step that raises leaves the state as it was, a step that completes installs the
updated state. -/
def train_step_final
    (forward_pass : TrainingState → List ℚ → Except StepError (List ℚ))
    (loss_function : List ℚ → Except StepError ℚ)
    (apply_gradients : TrainingState → ℚ → TrainingState)
    (beta_boundary beta_initial : ℚ)
    (dirichlet_input dirichlet_actual : List ℚ)
    (initial_Ez_input initial_Ez_actual : List ℚ)
    (initial_Hx_input initial_Hx_actual : List ℚ)
    (initial_Hy_input initial_Hy_actual : List ℚ)
    (input_tensor : List ℚ)
    (st : TrainingState) : TrainingState :=
  match train_step forward_pass loss_function apply_gradients
    beta_boundary beta_initial dirichlet_input dirichlet_actual
    initial_Ez_input initial_Ez_actual initial_Hx_input initial_Hx_actual
    initial_Hy_input initial_Hy_actual input_tensor st with
  | .ok (st1, _) => st1
  | .error _ => st

/-! ## Concrete scenarios -/

/-- Poisson-inverse scenario: `test_grad_x = [[1, 1]]` for the single element,
shape (1, 1, 2). -/
def c1_test_grad_x : Tensor3 := ⟨1, 1, 2, fun _ _ _ => 1⟩

/-- Poisson-inverse scenario: `test_grad_y = [[0, 0]]`. -/
def c1_test_grad_y : Tensor3 := ⟨1, 1, 2, fun _ _ _ => 0⟩

/-- Poisson-inverse scenario: test-function values (unused by the kernel). -/
def c1_test_shape_val : Tensor3 := ⟨1, 1, 2, fun _ _ _ => 1⟩

/-- Poisson-inverse scenario: `pred_grad_x = [1, 1]`, shape (1, 2). -/
def c1_pred_grad_x : Mat := ⟨1, 2, fun _ _ => 1⟩

/-- Poisson-inverse scenario: `pred_grad_y = [0, 0]`. -/
def c1_pred_grad_y : Mat := ⟨1, 2, fun _ _ => 0⟩

/-- Poisson-inverse scenario: predicted values (unused by the kernel). -/
def c1_pred_nn : Mat := ⟨1, 2, fun _ _ => 0⟩

/-- Poisson-inverse scenario: `forcing = [2.0]` for the single test function
and element. -/
def c1_forcing : Mat := ⟨1, 1, fun _ _ => 2⟩

/-- Poisson-inverse scenario: `inverse_params_dict` with `eps = 2.0`. -/
def c1_inverse_params : Params := fun s => if s = "eps" then some 2 else none

/-- Poisson-inverse scenario: empty `bilinear_params`. -/
def c1_bilinear_params : Params := fun _ => none

/-- Helmholtz scenario: `test_shape_val = [[1.0]]`, shape (1, 1, 1). -/
def c4_test_shape_val : Tensor3 := ⟨1, 1, 1, fun _ _ _ => 1⟩

/-- Helmholtz scenario: zero test-function gradients. -/
def c4_test_grad : Tensor3 := ⟨1, 1, 1, fun _ _ _ => 0⟩

/-- Helmholtz scenario: `pred = [1.0]` at the single quadrature point. -/
def c4_pred_nn : Mat := ⟨1, 1, fun _ _ => 1⟩

/-- Helmholtz scenario: zero predicted gradients. -/
def c4_zero_grad : Mat := ⟨1, 1, fun _ _ => 0⟩

/-- Helmholtz scenario: `forcing = [0.0]`. -/
def c4_forcing : Mat := ⟨1, 1, fun _ _ => 0⟩

/-- Helmholtz scenario: `bilinear_params` with `eps = 1.0`, `k = 2.0`. -/
def c4_bilinear_params : Params :=
  fun s => if s = "eps" then some 1 else if s = "k" then some 2 else none

/-! ## Theorems -/

/-- C1 (counterexample).  In the Poisson-inverse scenario (eps = 2, one
element, one test function, two quadrature points, `test_grad_x = [[1,1]]`,
`test_grad_y = [[0,0]]`, `pred_grad_x = [1,1]`, `pred_grad_y = [0,0]`,
forcing `[2.0]`), it is NOT the case that the scaled diffusion term is 8.0,
the pre-square residual 6.0, and the returned per-element residual 36.0: the
eps factor enters the diffusion term once, not twice. -/
theorem C1_scenario_counterexample :
    ¬ ((poisson_pde_diffusion 2 c1_test_grad_x c1_test_grad_y
          c1_pred_grad_x c1_pred_grad_y).entry 0 0 = 8 ∧
       (poisson_residual_matrix 2 c1_test_grad_x c1_test_grad_y
          c1_pred_grad_x c1_pred_grad_y c1_forcing).entry 0 0 = 6 ∧
       okEntry (pde_loss_poisson_inverse c1_test_shape_val c1_test_grad_x c1_test_grad_y
          c1_pred_nn c1_pred_grad_x c1_pred_grad_y c1_forcing
          c1_bilinear_params c1_inverse_params) 0 = some 36) := by
  intro h
  have h1 := h.1
  simp [poisson_pde_diffusion, matvec, Mat.transpose, Mat.add, Mat.smul,
    c1_test_grad_x, c1_test_grad_y, c1_pred_grad_x, c1_pred_grad_y,
    Finset.sum_range_succ] at h1
  norm_num at h1

/-- C1 (amended).  In the same Poisson-inverse scenario, the kernel's scaled
diffusion term equals 4.0 (eps = 2 times the contraction 1·1 + 1·1 = 2), the
pre-square residual equals 2.0 (4.0 − 2.0), and the returned per-element
residual equals 4.0 (the squared mean over the single test function). -/
theorem C1_scenario_amended :
    (poisson_pde_diffusion 2 c1_test_grad_x c1_test_grad_y
        c1_pred_grad_x c1_pred_grad_y).entry 0 0 = 4 ∧
    (poisson_residual_matrix 2 c1_test_grad_x c1_test_grad_y
        c1_pred_grad_x c1_pred_grad_y c1_forcing).entry 0 0 = 2 ∧
    okEntry (pde_loss_poisson_inverse c1_test_shape_val c1_test_grad_x c1_test_grad_y
        c1_pred_nn c1_pred_grad_x c1_pred_grad_y c1_forcing
        c1_bilinear_params c1_inverse_params) 0 = some 4 := by
  refine ⟨?_, ?_, ?_⟩ <;>
    simp [pde_loss_poisson_inverse, okEntry, reduceMeanSqAxis0,
      poisson_residual_matrix, poisson_pde_diffusion, matvec, Mat.transpose,
      Mat.add, Mat.smul, Mat.sub, c1_inverse_params,
      c1_test_grad_x, c1_test_grad_y, c1_pred_grad_x, c1_pred_grad_y, c1_forcing,
      Finset.sum_range_succ] <;>
    norm_num

/-- C4.  In the Helmholtz scenario (eps = 1, k = 2, one element, zero
gradients, predicted value [1.0] at one quadrature point,
`test_shape_val = [[1.0]]`, forcing [0.0]), the wave term equals 4.0, the
diffusion term equals 0, the pre-square residual (minus the eps-scaled
diffusion contraction, plus k² times the value contraction, minus the forcing)
equals 4.0, and the returned per-element residual equals 16.0. -/
theorem C4_helmholtz_scenario :
    (helmholtz_additional 2 c4_test_shape_val c4_pred_nn).entry 0 0 = 4 ∧
    (helmholtz_pde_diffusion 1 c4_test_grad c4_test_grad
        c4_zero_grad c4_zero_grad).entry 0 0 = 0 ∧
    (helmholtz_residual_matrix 1 2 c4_test_shape_val c4_test_grad c4_test_grad
        c4_pred_nn c4_zero_grad c4_zero_grad c4_forcing).entry 0 0 = 4 ∧
    okEntry (pde_loss_helmholtz c4_test_shape_val c4_test_grad c4_test_grad
        c4_pred_nn c4_zero_grad c4_zero_grad c4_forcing c4_bilinear_params) 0 = some 16 := by
  refine ⟨?_, ?_, ?_, ?_⟩ <;>
    simp [pde_loss_helmholtz, okEntry, reduceMeanSqAxis0,
      helmholtz_residual_matrix, helmholtz_pde_diffusion, helmholtz_additional,
      matvec, Mat.transpose, Mat.add, Mat.smul, Mat.sub, c4_bilinear_params,
      c4_test_shape_val, c4_test_grad, c4_pred_nn, c4_zero_grad, c4_forcing,
      Finset.sum_range_succ] <;>
    norm_num

/-- C3.  In the convection–diffusion inverse kernel the per-point diffusion
coefficient `inverse_params_list[0]` multiplies each predicted gradient
component elementwise BEFORE the quadrature contraction (first conjunct, the
entries of the diffusion term written out), and for a constant coefficient `c`
this agrees exactly with the Poisson-inverse convention of multiplying `c`
after the contraction (second conjunct). -/
theorem C3_constant_coefficient_orders_agree (c : ℚ) (E Q : ℕ)
    (diffusion_coeff_NN : Mat) (test_grad_x_mat test_grad_y_mat : Tensor3)
    (pred_grad_x_nn pred_grad_y_nn : Mat) (i j : ℕ) :
    ((cd2d_pde_diffusion diffusion_coeff_NN test_grad_x_mat test_grad_y_mat
        pred_grad_x_nn pred_grad_y_nn).entry i j =
      (∑ q ∈ Finset.range test_grad_x_mat.dim2,
        test_grad_x_mat.entry j i q * (pred_grad_x_nn.entry j q * diffusion_coeff_NN.entry j q)) +
      (∑ q ∈ Finset.range test_grad_y_mat.dim2,
        test_grad_y_mat.entry j i q * (pred_grad_y_nn.entry j q * diffusion_coeff_NN.entry j q))) ∧
    cd2d_pde_diffusion (Mat.const E Q c) test_grad_x_mat test_grad_y_mat
        pred_grad_x_nn pred_grad_y_nn =
      poisson_pde_diffusion c test_grad_x_mat test_grad_y_mat
        pred_grad_x_nn pred_grad_y_nn := by
  constructor
  · simp [cd2d_pde_diffusion, Mat.hadamard, matvec, Mat.transpose, Mat.add]
  · simp only [cd2d_pde_diffusion, poisson_pde_diffusion, Mat.const, Mat.hadamard,
      matvec, Mat.transpose, Mat.add, Mat.smul]
    congr 1
    funext t e
    rw [mul_add, Finset.mul_sum, Finset.mul_sum]
    congr 1 <;> exact Finset.sum_congr rfl fun q _ => by ring

/-- C5.  For each of the three residual kernels, replacing the forcing tensor
`F` by `F + δ` (the constant tensor δ added elementwise) changes every entry of
the pre-square residual matrix by exactly −δ, all other inputs fixed. -/
theorem C5_forcing_shift (dlt : ℚ) (r cdim : ℕ)
    (eps k b_x b_y creact : ℚ) (diffusion_coeff_NN : Mat)
    (test_shape_val_mat test_grad_x_mat test_grad_y_mat : Tensor3)
    (pred_nn pred_grad_x_nn pred_grad_y_nn forcing_function : Mat) (i j : ℕ) :
    (poisson_residual_matrix eps test_grad_x_mat test_grad_y_mat
        pred_grad_x_nn pred_grad_y_nn
        (Mat.add forcing_function (Mat.const r cdim dlt))).entry i j =
      (poisson_residual_matrix eps test_grad_x_mat test_grad_y_mat
        pred_grad_x_nn pred_grad_y_nn forcing_function).entry i j - dlt ∧
    (helmholtz_residual_matrix eps k test_shape_val_mat test_grad_x_mat test_grad_y_mat
        pred_nn pred_grad_x_nn pred_grad_y_nn
        (Mat.add forcing_function (Mat.const r cdim dlt))).entry i j =
      (helmholtz_residual_matrix eps k test_shape_val_mat test_grad_x_mat test_grad_y_mat
        pred_nn pred_grad_x_nn pred_grad_y_nn forcing_function).entry i j - dlt ∧
    (cd2d_residual_matrix b_x b_y creact diffusion_coeff_NN
        test_shape_val_mat test_grad_x_mat test_grad_y_mat
        pred_nn pred_grad_x_nn pred_grad_y_nn
        (Mat.add forcing_function (Mat.const r cdim dlt))).entry i j =
      (cd2d_residual_matrix b_x b_y creact diffusion_coeff_NN
        test_shape_val_mat test_grad_x_mat test_grad_y_mat
        pred_nn pred_grad_x_nn pred_grad_y_nn forcing_function).entry i j - dlt := by
  refine ⟨?_, ?_, ?_⟩ <;>
    simp only [poisson_residual_matrix, helmholtz_residual_matrix, cd2d_residual_matrix,
      poisson_pde_diffusion, helmholtz_pde_diffusion, helmholtz_additional,
      cd2d_pde_diffusion, Mat.sub, Mat.add, Mat.smul, Mat.const, Mat.transpose,
      Mat.hadamard, matvec] <;>
    ring

/-- C6.  For the Poisson-inverse kernel, scaling the constant coefficient
`inverse_params["eps"]` by a positive factor `c` scales the diffusion
contribution to the pre-square residual matrix by exactly `c`, all other
inputs fixed. -/
theorem C6_eps_scaling (c eps : ℚ) (hc : 0 < c)
    (test_grad_x_mat test_grad_y_mat : Tensor3)
    (pred_grad_x_nn pred_grad_y_nn : Mat) :
    poisson_pde_diffusion (c * eps) test_grad_x_mat test_grad_y_mat
        pred_grad_x_nn pred_grad_y_nn =
      Mat.smul c (poisson_pde_diffusion eps test_grad_x_mat test_grad_y_mat
        pred_grad_x_nn pred_grad_y_nn) := by
  simp only [poisson_pde_diffusion, Mat.smul, Mat.add, Mat.transpose, matvec]
  congr 1
  funext i j
  ring

/-- Witness for C6 at `c = 2`, `eps = 3`, concrete one-entry tensors. -/
theorem C6_eps_scaling_witness :
    (0 : ℚ) < 2 ∧
    poisson_pde_diffusion (2 * 3) ⟨1, 1, 1, fun _ _ _ => 1⟩ ⟨1, 1, 1, fun _ _ _ => 1⟩
        ⟨1, 1, fun _ _ => 1⟩ ⟨1, 1, fun _ _ => 1⟩ =
      Mat.smul 2 (poisson_pde_diffusion 3 ⟨1, 1, 1, fun _ _ _ => 1⟩ ⟨1, 1, 1, fun _ _ _ => 1⟩
        ⟨1, 1, fun _ _ => 1⟩ ⟨1, 1, fun _ _ => 1⟩) :=
  ⟨by norm_num, C6_eps_scaling 2 3 (by norm_num) _ _ _ _⟩

/-- C2.  For every input whose test-function matrices have shape (E, T, Q) and
whose prediction fields have shape (E, Q), each residual kernel returns a
vector of length E — regardless of T and Q — whose entries are the mean over
the T test functions of the squared pre-square residual matrix. -/
theorem C2_shape_and_mean (E T Q : ℕ)
    (test_shape_val_mat test_grad_x_mat test_grad_y_mat : Tensor3)
    (pred_nn pred_grad_x_nn pred_grad_y_nn forcing_function : Mat)
    (eps k b_x b_y creact : ℚ) (diffusion_coeff_NN : Mat) (rest : List Mat)
    (dP dB dC : Params)
    (htsv : test_shape_val_mat.dim0 = E ∧ test_shape_val_mat.dim1 = T ∧
      test_shape_val_mat.dim2 = Q)
    (htgx : test_grad_x_mat.dim0 = E ∧ test_grad_x_mat.dim1 = T ∧
      test_grad_x_mat.dim2 = Q)
    (htgy : test_grad_y_mat.dim0 = E ∧ test_grad_y_mat.dim1 = T ∧
      test_grad_y_mat.dim2 = Q)
    (hpn : pred_nn.dim0 = E ∧ pred_nn.dim1 = Q)
    (hpgx : pred_grad_x_nn.dim0 = E ∧ pred_grad_x_nn.dim1 = Q)
    (hpgy : pred_grad_y_nn.dim0 = E ∧ pred_grad_y_nn.dim1 = Q)
    (hP : dP "eps" = some eps)
    (hBe : dB "eps" = some eps) (hBk : dB "k" = some k)
    (hCx : dC "b_x" = some b_x) (hCy : dC "b_y" = some b_y)
    (hCc : dC "c" = some creact)
    (j : ℕ) :
    (okLen (pde_loss_poisson_inverse test_shape_val_mat test_grad_x_mat test_grad_y_mat
        pred_nn pred_grad_x_nn pred_grad_y_nn forcing_function dB dP) = some E ∧
     okEntry (pde_loss_poisson_inverse test_shape_val_mat test_grad_x_mat test_grad_y_mat
        pred_nn pred_grad_x_nn pred_grad_y_nn forcing_function dB dP) j =
       some ((∑ i ∈ Finset.range T,
         (poisson_residual_matrix eps test_grad_x_mat test_grad_y_mat
           pred_grad_x_nn pred_grad_y_nn forcing_function).entry i j ^ 2) / (T : ℚ))) ∧
    (okLen (pde_loss_helmholtz test_shape_val_mat test_grad_x_mat test_grad_y_mat
        pred_nn pred_grad_x_nn pred_grad_y_nn forcing_function dB) = some E ∧
     okEntry (pde_loss_helmholtz test_shape_val_mat test_grad_x_mat test_grad_y_mat
        pred_nn pred_grad_x_nn pred_grad_y_nn forcing_function dB) j =
       some ((∑ i ∈ Finset.range T,
         (helmholtz_residual_matrix eps k test_shape_val_mat test_grad_x_mat test_grad_y_mat
           pred_nn pred_grad_x_nn pred_grad_y_nn forcing_function).entry i j ^ 2) / (T : ℚ))) ∧
    (okLen (pde_loss_cd2d_inverse_domain test_shape_val_mat test_grad_x_mat test_grad_y_mat
        pred_nn pred_grad_x_nn pred_grad_y_nn forcing_function dC
        (diffusion_coeff_NN :: rest)) = some E ∧
     okEntry (pde_loss_cd2d_inverse_domain test_shape_val_mat test_grad_x_mat test_grad_y_mat
        pred_nn pred_grad_x_nn pred_grad_y_nn forcing_function dC
        (diffusion_coeff_NN :: rest)) j =
       some ((∑ i ∈ Finset.range T,
         (cd2d_residual_matrix b_x b_y creact diffusion_coeff_NN
           test_shape_val_mat test_grad_x_mat test_grad_y_mat
           pred_nn pred_grad_x_nn pred_grad_y_nn forcing_function).entry i j ^ 2) / (T : ℚ))) := by
  obtain ⟨hgx0, hgx1, hgx2⟩ := htgx
  refine ⟨⟨?_, ?_⟩, ⟨?_, ?_⟩, ⟨?_, ?_⟩⟩ <;>
    simp [pde_loss_poisson_inverse, pde_loss_helmholtz, pde_loss_cd2d_inverse_domain,
      hP, hBe, hBk, hCx, hCy, hCc, okLen, okEntry, reduceMeanSqAxis0,
      poisson_residual_matrix, helmholtz_residual_matrix, cd2d_residual_matrix,
      poisson_pde_diffusion, helmholtz_pde_diffusion, helmholtz_additional,
      cd2d_pde_diffusion, Mat.sub, Mat.add, Mat.smul, Mat.transpose, Mat.hadamard,
      matvec, hgx0, hgx1]

/-- Witness for C2 at E = T = Q = 1, all-one tensors, all coefficients 1. -/
theorem C2_shape_and_mean_witness :
    okLen (pde_loss_poisson_inverse ⟨1, 1, 1, fun _ _ _ => 1⟩ ⟨1, 1, 1, fun _ _ _ => 1⟩
      ⟨1, 1, 1, fun _ _ _ => 1⟩ ⟨1, 1, fun _ _ => 1⟩ ⟨1, 1, fun _ _ => 1⟩
      ⟨1, 1, fun _ _ => 1⟩ ⟨1, 1, fun _ _ => 1⟩ (fun _ => some 1) (fun _ => some 1)) = some 1 ∧
    okLen (pde_loss_helmholtz ⟨1, 1, 1, fun _ _ _ => 1⟩ ⟨1, 1, 1, fun _ _ _ => 1⟩
      ⟨1, 1, 1, fun _ _ _ => 1⟩ ⟨1, 1, fun _ _ => 1⟩ ⟨1, 1, fun _ _ => 1⟩
      ⟨1, 1, fun _ _ => 1⟩ ⟨1, 1, fun _ _ => 1⟩ (fun _ => some 1)) = some 1 ∧
    okLen (pde_loss_cd2d_inverse_domain ⟨1, 1, 1, fun _ _ _ => 1⟩ ⟨1, 1, 1, fun _ _ _ => 1⟩
      ⟨1, 1, 1, fun _ _ _ => 1⟩ ⟨1, 1, fun _ _ => 1⟩ ⟨1, 1, fun _ _ => 1⟩
      ⟨1, 1, fun _ _ => 1⟩ ⟨1, 1, fun _ _ => 1⟩ (fun _ => some 1)
      [⟨1, 1, fun _ _ => 1⟩]) = some 1 := by
  have h := C2_shape_and_mean 1 1 1
    ⟨1, 1, 1, fun _ _ _ => 1⟩ ⟨1, 1, 1, fun _ _ _ => 1⟩ ⟨1, 1, 1, fun _ _ _ => 1⟩
    ⟨1, 1, fun _ _ => 1⟩ ⟨1, 1, fun _ _ => 1⟩ ⟨1, 1, fun _ _ => 1⟩ ⟨1, 1, fun _ _ => 1⟩
    1 1 1 1 1 ⟨1, 1, fun _ _ => 1⟩ [] (fun _ => some 1) (fun _ => some 1) (fun _ => some 1)
    ⟨rfl, rfl, rfl⟩ ⟨rfl, rfl, rfl⟩ ⟨rfl, rfl, rfl⟩ ⟨rfl, rfl⟩ ⟨rfl, rfl⟩ ⟨rfl, rfl⟩
    rfl rfl rfl rfl rfl rfl 0
  exact ⟨h.1.1, h.2.1.1, h.2.2.1⟩

/-- C7.  Each kernel fails with the missing-coefficient error when a required
coefficient key is absent from its parameter mapping: `eps` in
`inverse_params_dict` for the Poisson-inverse kernel, `eps` or `k` in
`bilinear_params` for the Helmholtz kernel, and `b_x`, `b_y` or `c` in
`bilinear_params` for the convection–diffusion inverse kernel (whose
`inverse_params_list` is taken nonempty so that the list indexing precedes the
dictionary lookups, as in the source). -/
theorem C7_missing_coefficient :
    (∀ (tsv tgx tgy : Tensor3) (pn pgx pgy F : Mat) (bp d : Params),
      d "eps" = none →
      isMissingCoeff (pde_loss_poisson_inverse tsv tgx tgy pn pgx pgy F bp d) = true) ∧
    (∀ (tsv tgx tgy : Tensor3) (pn pgx pgy F : Mat) (bp : Params),
      bp "eps" = none ∨ bp "k" = none →
      isMissingCoeff (pde_loss_helmholtz tsv tgx tgy pn pgx pgy F bp) = true) ∧
    (∀ (tsv tgx tgy : Tensor3) (pn pgx pgy F : Mat) (bp : Params)
      (diffusion_coeff_NN : Mat) (rest : List Mat),
      bp "b_x" = none ∨ bp "b_y" = none ∨ bp "c" = none →
      isMissingCoeff (pde_loss_cd2d_inverse_domain tsv tgx tgy pn pgx pgy F bp
        (diffusion_coeff_NN :: rest)) = true) := by
  refine ⟨?_, ?_, ?_⟩
  · intro tsv tgx tgy pn pgx pgy F bp d h
    simp [pde_loss_poisson_inverse, h, isMissingCoeff]
  · intro tsv tgx tgy pn pgx pgy F bp h
    rcases h with h | h
    · simp [pde_loss_helmholtz, h, isMissingCoeff]
    · cases heps : bp "eps" <;>
        simp [pde_loss_helmholtz, heps, h, isMissingCoeff]
  · intro tsv tgx tgy pn pgx pgy F bp diffusion_coeff_NN rest h
    rcases h with h | h | h
    · simp [pde_loss_cd2d_inverse_domain, h, isMissingCoeff]
    · cases hx : bp "b_x" <;>
        simp [pde_loss_cd2d_inverse_domain, hx, h, isMissingCoeff]
    · cases hx : bp "b_x" <;> cases hy : bp "b_y" <;>
        simp [pde_loss_cd2d_inverse_domain, hx, hy, h, isMissingCoeff]

/-- Witness for C7: each kernel applied with an empty parameter mapping fails
with the missing-coefficient error. -/
theorem C7_missing_coefficient_witness :
    isMissingCoeff (pde_loss_poisson_inverse ⟨1, 1, 1, fun _ _ _ => 0⟩
      ⟨1, 1, 1, fun _ _ _ => 0⟩ ⟨1, 1, 1, fun _ _ _ => 0⟩ ⟨1, 1, fun _ _ => 0⟩
      ⟨1, 1, fun _ _ => 0⟩ ⟨1, 1, fun _ _ => 0⟩ ⟨1, 1, fun _ _ => 0⟩
      (fun _ => none) (fun _ => none)) = true ∧
    isMissingCoeff (pde_loss_helmholtz ⟨1, 1, 1, fun _ _ _ => 0⟩
      ⟨1, 1, 1, fun _ _ _ => 0⟩ ⟨1, 1, 1, fun _ _ _ => 0⟩ ⟨1, 1, fun _ _ => 0⟩
      ⟨1, 1, fun _ _ => 0⟩ ⟨1, 1, fun _ _ => 0⟩ ⟨1, 1, fun _ _ => 0⟩
      (fun _ => none)) = true ∧
    isMissingCoeff (pde_loss_cd2d_inverse_domain ⟨1, 1, 1, fun _ _ _ => 0⟩
      ⟨1, 1, 1, fun _ _ _ => 0⟩ ⟨1, 1, 1, fun _ _ _ => 0⟩ ⟨1, 1, fun _ _ => 0⟩
      ⟨1, 1, fun _ _ => 0⟩ ⟨1, 1, fun _ _ => 0⟩ ⟨1, 1, fun _ _ => 0⟩
      (fun _ => none) [⟨1, 1, fun _ _ => 0⟩]) = true := by
  have h := C7_missing_coefficient
  exact ⟨h.1 _ _ _ _ _ _ _ _ _ rfl, h.2.1 _ _ _ _ _ _ _ _ (Or.inl rfl),
    h.2.2 _ _ _ _ _ _ _ _ _ _ (Or.inl rfl)⟩

/-- C8.  A completing training step returns exactly the four named scalar
losses, with `loss = loss_pde + beta_boundary * loss_dirichlet + beta_initial *
(sum of the three per-field initial-condition losses)`, the updated state being
the single optimizer application to that total; the overridable defaults of the
two weights are 10 and 100. -/
theorem C8_train_step_losses
    (forward_pass : TrainingState → List ℚ → Except StepError (List ℚ))
    (loss_function : List ℚ → Except StepError ℚ)
    (apply_gradients : TrainingState → ℚ → TrainingState)
    (beta_boundary beta_initial : ℚ)
    (dirichlet_input dirichlet_actual : List ℚ)
    (initial_Ez_input initial_Ez_actual : List ℚ)
    (initial_Hx_input initial_Hx_actual : List ℚ)
    (initial_Hy_input initial_Hy_actual : List ℚ)
    (input_tensor : List ℚ) (st : TrainingState)
    (pvd pez phx phy pv : List ℚ) (pde_residual : ℚ)
    (h1 : forward_pass st dirichlet_input = .ok pvd)
    (h2 : forward_pass st initial_Ez_input = .ok pez)
    (h3 : forward_pass st initial_Hx_input = .ok phx)
    (h4 : forward_pass st initial_Hy_input = .ok phy)
    (h5 : forward_pass st input_tensor = .ok pv)
    (h6 : loss_function pv = .ok pde_residual) :
    train_step forward_pass loss_function apply_gradients beta_boundary beta_initial
      dirichlet_input dirichlet_actual initial_Ez_input initial_Ez_actual
      initial_Hx_input initial_Hx_actual initial_Hy_input initial_Hy_actual
      input_tensor st =
      .ok (apply_gradients st
            (pde_residual + beta_boundary * mse pvd dirichlet_actual +
              beta_initial * (mse pez initial_Ez_actual + mse phx initial_Hx_actual +
                mse phy initial_Hy_actual)),
           ⟨pde_residual, mse pvd dirichlet_actual,
            mse pez initial_Ez_actual + mse phx initial_Hx_actual + mse phy initial_Hy_actual,
            pde_residual + beta_boundary * mse pvd dirichlet_actual +
              beta_initial * (mse pez initial_Ez_actual + mse phx initial_Hx_actual +
                mse phy initial_Hy_actual)⟩) ∧
    beta_boundary_default = 10 ∧ beta_initial_default = 100 := by
  refine ⟨?_, rfl, rfl⟩
  simp [train_step, h1, h2, h3, h4, h5, h6, compute_losses, bind, Except.bind]

/-- Witness for C8 at a concrete always-succeeding forward pass and residual. -/
theorem C8_train_step_losses_witness :
    train_step (fun _ _ => .ok [0]) (fun _ => .ok 0) (fun s _ => s) 10 100
      [0] [0] [0] [0] [0] [0] [0] [0] [0] ⟨[0], [0], 0⟩ =
      .ok (⟨[0], [0], 0⟩,
           ⟨0, mse [0] [0], mse [0] [0] + mse [0] [0] + mse [0] [0],
            0 + 10 * mse [0] [0] + 100 * (mse [0] [0] + mse [0] [0] + mse [0] [0])⟩) ∧
    beta_boundary_default = 10 ∧ beta_initial_default = 100 :=
  C8_train_step_losses (fun _ _ => .ok [0]) (fun _ => .ok 0) (fun s _ => s) 10 100
    [0] [0] [0] [0] [0] [0] [0] [0] [0] ⟨[0], [0], 0⟩
    [0] [0] [0] [0] [0] 0 rfl rfl rfl rfl rfl rfl

/-- C9.  If a training step fails with any fatal error during the prediction or
residual phases — which all precede the single call to `apply_gradients` — the
observable training state (trainable parameters, optimizer state, epoch) after
the step is exactly the pre-step state: no partial update is applied. -/
theorem C9_all_or_nothing
    (forward_pass : TrainingState → List ℚ → Except StepError (List ℚ))
    (loss_function : List ℚ → Except StepError ℚ)
    (apply_gradients : TrainingState → ℚ → TrainingState)
    (beta_boundary beta_initial : ℚ)
    (dirichlet_input dirichlet_actual : List ℚ)
    (initial_Ez_input initial_Ez_actual : List ℚ)
    (initial_Hx_input initial_Hx_actual : List ℚ)
    (initial_Hy_input initial_Hy_actual : List ℚ)
    (input_tensor : List ℚ) (st : TrainingState) (e : StepError)
    (h : train_step forward_pass loss_function apply_gradients beta_boundary beta_initial
      dirichlet_input dirichlet_actual initial_Ez_input initial_Ez_actual
      initial_Hx_input initial_Hx_actual initial_Hy_input initial_Hy_actual
      input_tensor st = .error e) :
    train_step_final forward_pass loss_function apply_gradients beta_boundary beta_initial
      dirichlet_input dirichlet_actual initial_Ez_input initial_Ez_actual
      initial_Hx_input initial_Hx_actual initial_Hy_input initial_Hy_actual
      input_tensor st = st := by
  unfold train_step_final
  rw [h]

/-- Witness for C9: a forward pass that raises a shape mismatch leaves the
concrete training state untouched. -/
theorem C9_all_or_nothing_witness :
    train_step (fun _ _ => .error .shapeMismatch) (fun _ => .ok 0) (fun s _ => s)
      10 100 [0] [0] [0] [0] [0] [0] [0] [0] [0] ⟨[1, 2], [3], 4⟩ =
      .error .shapeMismatch ∧
    train_step_final (fun _ _ => .error .shapeMismatch) (fun _ => .ok 0) (fun s _ => s)
      10 100 [0] [0] [0] [0] [0] [0] [0] [0] [0] ⟨[1, 2], [3], 4⟩ = ⟨[1, 2], [3], 4⟩ :=
  ⟨rfl, C9_all_or_nothing (fun _ _ => .error .shapeMismatch) (fun _ => .ok 0) (fun s _ => s)
    10 100 [0] [0] [0] [0] [0] [0] [0] [0] [0] ⟨[1, 2], [3], 4⟩ .shapeMismatch rfl⟩

/-- C10.  The Poisson-inverse kernel's output does not depend on
`test_shape_val_mat`, `pred_nn` or `bilinear_params`: any two calls agreeing on
the gradient test matrices, the predicted gradients, the forcing and the value
of `inverse_params_dict["eps"]` return identical results. -/
theorem C10_poisson_ignores_unused_inputs
    (tsv1 tsv2 test_grad_x_mat test_grad_y_mat : Tensor3) (pn1 pn2 : Mat)
    (pred_grad_x_nn pred_grad_y_nn forcing_function : Mat)
    (bp1 bp2 d1 d2 : Params)
    (h : d1 "eps" = d2 "eps") :
    pde_loss_poisson_inverse tsv1 test_grad_x_mat test_grad_y_mat
      pn1 pred_grad_x_nn pred_grad_y_nn forcing_function bp1 d1 =
    pde_loss_poisson_inverse tsv2 test_grad_x_mat test_grad_y_mat
      pn2 pred_grad_x_nn pred_grad_y_nn forcing_function bp2 d2 := by
  unfold pde_loss_poisson_inverse
  rw [h]

/-- Witness for C10: two calls differing in the unused arguments and in the
irrelevant entries of the parameter mappings agree. -/
theorem C10_poisson_ignores_unused_inputs_witness :
    ((fun s => if s = "eps" then some (2 : ℚ) else none) : Params) "eps" =
      ((fun _ => some (2 : ℚ)) : Params) "eps" ∧
    pde_loss_poisson_inverse ⟨1, 1, 1, fun _ _ _ => 5⟩ ⟨1, 1, 1, fun _ _ _ => 1⟩
      ⟨1, 1, 1, fun _ _ _ => 1⟩ ⟨1, 1, fun _ _ => 7⟩ ⟨1, 1, fun _ _ => 1⟩
      ⟨1, 1, fun _ _ => 1⟩ ⟨1, 1, fun _ _ => 1⟩ (fun _ => some 9)
      (fun s => if s = "eps" then some 2 else none) =
    pde_loss_poisson_inverse ⟨2, 3, 4, fun _ _ _ => 0⟩ ⟨1, 1, 1, fun _ _ _ => 1⟩
      ⟨1, 1, 1, fun _ _ _ => 1⟩ ⟨5, 6, fun _ _ => 0⟩ ⟨1, 1, fun _ _ => 1⟩
      ⟨1, 1, fun _ _ => 1⟩ ⟨1, 1, fun _ _ => 1⟩ (fun _ => none)
      (fun _ => some 2) :=
  ⟨rfl, C10_poisson_ignores_unused_inputs _ _ _ _ _ _ _ _ _ _ _ _ _ rfl⟩

end SciREX
